import Mathlib

/-!
Shallow embedding of the ephemeral credential and session lifecycle subsystem
of the Express/Mongoose backend: the OTP store (`src/utils/otpService.js`),
the password-reset token store (`src/utils/passwordResetService.js`), the JWT
token service (`verifyAccessToken` / `verifyRefreshToken`), the revocation
registry (`src/utils/tokenBlacklist.js`) and the authentication middleware
(`src/middleware/authMiddleware.js`).

Modelling conventions: the JS `Map` objects become association lists with
`Map`-like `set`/`get`/`delete`; `Date.now()` / `new Date()` become an
explicit `now : Nat` argument (milliseconds for the stores, seconds for
JWTs); `Math.random()` becomes an explicit rational in `[0, 1)`; the
`crypto` SHA-256 hex digest becomes an explicit `hash : String → String`
parameter; stateful functions return their result paired with the updated
store.  JS functions that return `null` on failure become `Option`-valued
functions returning `none`.
-/

set_option autoImplicit false

namespace NodeAuth

universe u

variable {α : Type u}

/-- JS `Map.prototype.set`: replace the entry whose key matches, otherwise
append a fresh entry at the end. -/
def mapSet (m : List (String × α)) (k : String) (v : α) : List (String × α) :=
  match m with
  | [] => [(k, v)]
  | (k', v') :: rest => if k' = k then (k, v) :: rest else (k', v') :: mapSet rest k v

/-- JS `Map.prototype.get`: the first entry with the key, if any. -/
def mapGet (m : List (String × α)) (k : String) : Option α :=
  match m with
  | [] => none
  | (k', v') :: rest => if k' = k then some v' else mapGet rest k

/-- JS `Map.prototype.delete`: remove the entries with the key. -/
def mapDelete (m : List (String × α)) (k : String) : List (String × α) :=
  match m with
  | [] => []
  | (k', v') :: rest => if k' = k then mapDelete rest k else (k', v') :: mapDelete rest k

/-- Number of entries carrying key `k`; a JS `Map` holds at most one. -/
def countKey (m : List (String × α)) (k : String) : Nat :=
  (m.filter (fun e => decide (e.1 = k))).length

/-- The `for ... of store.entries()` sweep shared by `cleanupExpiredOTPs` and
`cleanupExpiredTokens`: delete every entry with `now > expiresAt`. -/
def cleanupExpired (expOf : α → Nat) (m : List (String × α)) (now : Nat) :
    List (String × α) :=
  m.filter (fun e => decide (now ≤ expOf e.2))

theorem mapGet_delete_self (m : List (String × α)) (k : String) :
    mapGet (mapDelete m k) k = none := by
  induction m with
  | nil => rfl
  | cons e rest ih =>
    obtain ⟨k', v'⟩ := e
    by_cases h : k' = k <;> simp [mapDelete, mapGet, h, ih]

theorem mapGet_cleanup_set (expOf : α → Nat) (m : List (String × α)) (k : String)
    (v : α) (now : Nat) (h : now ≤ expOf v) :
    mapGet (cleanupExpired expOf (mapSet m k v) now) k = some v := by
  induction m with
  | nil => simp [mapSet, cleanupExpired, mapGet, h]
  | cons e rest ih =>
    obtain ⟨k', v'⟩ := e
    by_cases hk : k' = k
    · simp [mapSet, hk, cleanupExpired, mapGet, h]
    · by_cases hkeep : now ≤ expOf v'
      · simpa [mapSet, hk, cleanupExpired, mapGet, hkeep] using ih
      · simpa [mapSet, hk, cleanupExpired, mapGet, hkeep] using ih

theorem countKey_nil (k : String) : countKey ([] : List (String × α)) k = 0 := by
  simp [countKey]

theorem countKey_cons (a : String) (b : α) (rest : List (String × α)) (k : String) :
    countKey ((a, b) :: rest) k = (if a = k then 1 else 0) + countKey rest k := by
  by_cases h : a = k
  · simp [countKey, List.filter_cons, h]
    omega
  · simp [countKey, List.filter_cons, h]

theorem countKey_set_ne (m : List (String × α)) (k k' : String) (v : α)
    (h : k ≠ k') : countKey (mapSet m k v) k' = countKey m k' := by
  induction m with
  | nil => simp [mapSet, countKey_cons, countKey_nil, h]
  | cons e rest ih =>
    obtain ⟨a, b⟩ := e
    by_cases ha : a = k
    · subst ha
      simp [mapSet, countKey_cons, h]
    · simp [mapSet, ha, countKey_cons, ih]

theorem countKey_set_le (m : List (String × α)) (k k' : String) (v : α)
    (h : countKey m k' ≤ 1) : countKey (mapSet m k v) k' ≤ 1 := by
  induction m with
  | nil =>
    by_cases hk : k = k' <;> simp [mapSet, countKey_cons, countKey_nil, hk]
  | cons e rest ih =>
    obtain ⟨a, b⟩ := e
    rw [countKey_cons] at h
    by_cases ha : a = k
    · subst ha
      have hset : mapSet ((a, b) :: rest) a v = (a, v) :: rest := by simp [mapSet]
      rw [hset, countKey_cons]
      by_cases hk : a = k'
      · rw [if_pos hk] at h ⊢; omega
      · rw [if_neg hk] at h ⊢; omega
    · simp only [mapSet, if_neg ha, countKey_cons]
      by_cases hak : a = k'
      · -- here the head entry already carries `k'`, and `k ≠ k'` since `a ≠ k`
        have hne : k ≠ k' := fun hkk => ha (hak.trans hkk.symm)
        rw [countKey_set_ne rest k k' v hne]
        simp only [hak, if_pos rfl] at h ⊢
        omega
      · simp only [if_neg hak] at h ⊢
        simpa using ih (by omega)

theorem countKey_filter_le (p : String × α → Bool) (m : List (String × α))
    (k : String) : countKey (m.filter p) k ≤ countKey m k := by
  induction m with
  | nil => simp [countKey]
  | cons e rest ih =>
    obtain ⟨a, b⟩ := e
    by_cases hp : p (a, b)
    · rw [List.filter_cons_of_pos hp, countKey_cons, countKey_cons]
      omega
    · rw [List.filter_cons_of_neg (by simpa using hp), countKey_cons]
      omega

/-! ## OTP Store (`src/utils/otpService.js`)

The file appears in two lineage versions that differ only in the value of
`OTP_EXPIRATION_TIME`: 5 minutes in the primary version, 30 seconds in the
second one.  All other code is identical, so the store operations are
defined once, parameterized by the TTL. -/

/-- An entry of `otpStore`: `otp / expiresAt / userId` (expiresAt in ms). -/
structure OtpRecord where
  otp : String
  expiresAt : Nat
  userId : String
  deriving DecidableEq

abbrev OtpStore := List (String × OtpRecord)

/-- Primary `otpService.js`: `5 * 60 * 1000` ms (commented "5 minutes"). -/
def OTP_EXPIRATION_TIME : Nat := 5 * 60 * 1000

/-- Second lineage version of `otpService.js`: `30 * 1000` ms ("30 seconds"). -/
def OTP_EXPIRATION_TIME_V2 : Nat := 30 * 1000

/-- ASCII lower-casing of one character, as `toLowerCase` acts on the
ASCII range (the email keys this service handles). -/
def lowerChar (c : Char) : Char :=
  if 65 ≤ c.toNat ∧ c.toNat ≤ 90 then Char.ofNat (c.toNat + 32) else c

/-- Strip leading and trailing whitespace, as `String.prototype.trim`. -/
def trimChars (l : List Char) : List Char :=
  ((l.dropWhile Char.isWhitespace).reverse.dropWhile Char.isWhitespace).reverse

/-- The key normalization `email.toLowerCase().trim()` applied by every
store operation. -/
def normalizeKey (email : String) : String :=
  String.mk (trimChars (email.data.map lowerChar))

/-- Models `Math.floor(100000 + r * 900000)` where `r` stands for the value
returned by `Math.random()`, a number in `[0, 1)` (modelled as a rational);
the generated OTP is this value rendered in decimal. -/
def generateOTPVal (r : ℚ) : ℤ := Int.floor (100000 + r * 900000)

/-- Models `generateOTP` from otpService.js: the 6-digit decimal string. -/
def generateOTP (r : ℚ) : String := toString (generateOTPVal r)

/-- Models `cleanupExpiredOTPs`: delete every entry with `now > expiresAt`. -/
def cleanupExpiredOTPs (store : OtpStore) (now : Nat) : OtpStore :=
  cleanupExpired OtpRecord.expiresAt store now

/-- Models `storeOTP(email, userId)` with the generated code and `Date.now()` made
explicit arguments and the version's `OTP_EXPIRATION_TIME` as `ttl`: set the
record, sweep expired entries, and return the plaintext code. -/
def storeOTPWith (ttl : Nat) (store : OtpStore) (email userId otp : String)
    (now : Nat) : OtpStore × String :=
  (cleanupExpiredOTPs
    (mapSet store (normalizeKey email)
      { otp := otp, expiresAt := now + ttl, userId := userId }) now, otp)

/-- Models `storeOTP` of the primary version (5-minute TTL). -/
def storeOTP (store : OtpStore) (email userId otp : String) (now : Nat) :
    OtpStore × String :=
  storeOTPWith OTP_EXPIRATION_TIME store email userId otp now

/-- Models `storeOTP` of the second lineage version (30-second TTL). -/
def storeOTP_V2 (store : OtpStore) (email userId otp : String) (now : Nat) :
    OtpStore × String :=
  storeOTPWith OTP_EXPIRATION_TIME_V2 store email userId otp now

/-- Models `verifyOTP(email, otp)` from otpService.js (identical in both versions),
with `new Date()` the explicit argument `now`; the JS return value (`null`
or the `userId` object) is paired with the updated store. -/
def verifyOTP (store : OtpStore) (email otp : String) (now : Nat) :
    Option String × OtpStore :=
  match mapGet store (normalizeKey email) with
  | none => (none, store)
  | some storedData =>
    if now > storedData.expiresAt then
      (none, mapDelete store (normalizeKey email))
    else if storedData.otp ≠ otp then
      (none, store)
    else
      (some storedData.userId, mapDelete store (normalizeKey email))

/-- Models `getOTP(email)` from otpService.js (debugging accessor). -/
def getOTP (store : OtpStore) (email : String) : Option OtpRecord :=
  mapGet store (normalizeKey email)

/-! ## Reset Token Store (`src/utils/passwordResetService.js`)

`generateResetToken` (crypto.randomBytes, an external entropy source) is
modelled by passing the plaintext token in; `hashToken` (the crypto SHA-256
hex digest, an external library primitive) is modelled as an explicit
`hash : String → String` parameter. -/

/-- An entry of `resetTokenStore`: `token` holds the *hashed* token. -/
structure ResetRecord where
  token : String
  expiresAt : Nat
  userId : String
  deriving DecidableEq

abbrev ResetStore := List (String × ResetRecord)

/-- Models `15 * 60 * 1000` ms ("15 minutes"). -/
def TOKEN_EXPIRATION_TIME : Nat := 15 * 60 * 1000

/-- Models `cleanupExpiredTokens`: delete every entry with `now > expiresAt`. -/
def cleanupExpiredTokens (store : ResetStore) (now : Nat) : ResetStore :=
  cleanupExpired ResetRecord.expiresAt store now

/-- Models `storeResetToken(email, userId)`: store only `hash plainToken` with
`expiresAt = now + 15min`, sweep expired entries, return the plaintext. -/
def storeResetToken (hash : String → String) (store : ResetStore)
    (email userId plainToken : String) (now : Nat) : ResetStore × String :=
  (cleanupExpiredTokens
    (mapSet store (normalizeKey email)
      { token := hash plainToken, expiresAt := now + TOKEN_EXPIRATION_TIME,
        userId := userId }) now, plainToken)

/-- Models `verifyResetToken(email, token)`: compare `hash token` with the stored
digest; failure paths mirror `verifyOTP`. -/
def verifyResetToken (hash : String → String) (store : ResetStore)
    (email token : String) (now : Nat) : Option String × ResetStore :=
  match mapGet store (normalizeKey email) with
  | none => (none, store)
  | some storedData =>
    if now > storedData.expiresAt then
      (none, mapDelete store (normalizeKey email))
    else if storedData.token ≠ hash token then
      (none, store)
    else
      (some storedData.userId, mapDelete store (normalizeKey email))

/-! ## JWT Token Service (`jwtService.js`, sources `src/unnamed/part_006`)

A token is either a malformed string or a signed claims object; `jwt.verify`
succeeds exactly on a well-formed token signed with the presented secret
that is not yet expired (`now` in seconds).  The library's thrown errors
are modelled as `none`: every caller in this service catches them and
returns `null`. -/

/-- The claims payload `jwt.sign` embeds; the JS field `type` is `typ`
here, and `exp` is the absolute expiry in seconds. -/
structure JwtClaims where
  userId : String
  email : String
  typ : String
  exp : Nat
  deriving DecidableEq

inductive Token where
  | malformed (raw : String)
  | signed (claims : JwtClaims) (secret : String)
  deriving DecidableEq

/-- Models `jwt.verify(token, secret)` at time `now`. -/
def jwtVerify (tok : Token) (secret : String) (now : Nat) : Option JwtClaims :=
  match tok with
  | .malformed _ => none
  | .signed c k => if k = secret ∧ now < c.exp then some c else none

/-- Models `ACCESS_TOKEN_EXPIRY = "15m"`, in seconds. -/
def ACCESS_TOKEN_EXPIRY : Nat := 15 * 60

/-- Models `REFRESH_TOKEN_EXPIRY = "7d"`, in seconds. -/
def REFRESH_TOKEN_EXPIRY : Nat := 7 * 24 * 60 * 60

/-- Models `generateAccessToken(userId, email)`. -/
def generateAccessToken (userId email accessSecret : String) (now : Nat) : Token :=
  .signed { userId := userId, email := email, typ := "access",
            exp := now + ACCESS_TOKEN_EXPIRY } accessSecret

/-- Models `generateRefreshToken(userId, email)`. -/
def generateRefreshToken (userId email refreshSecret : String) (now : Nat) : Token :=
  .signed { userId := userId, email := email, typ := "refresh",
            exp := now + REFRESH_TOKEN_EXPIRY } refreshSecret

/-- Models `verifyAccessToken(token)`: `jwt.verify` against `ACCESS_SECRET`, then
the class-tag check `decoded.type !== "access"`. -/
def verifyAccessToken (accessSecret : String) (now : Nat) (tok : Token) :
    Option JwtClaims :=
  match jwtVerify tok accessSecret now with
  | none => none
  | some decoded => if decoded.typ ≠ "access" then none else some decoded

/-- Models `verifyRefreshToken(token)`: `jwt.verify` against `REFRESH_SECRET`, then
the class-tag check `decoded.type !== "refresh"`.  Note: it consults no
revocation registry. -/
def verifyRefreshToken (refreshSecret : String) (now : Nat) (tok : Token) :
    Option JwtClaims :=
  match jwtVerify tok refreshSecret now with
  | none => none
  | some decoded => if decoded.typ ≠ "refresh" then none else some decoded

/-! ## Revocation Registry (`src/utils/tokenBlacklist.js`) -/

abbrev TokenBlacklist := List Token

/-- Models `blacklistToken`: idempotent insert into the set. -/
def blacklistToken (bl : TokenBlacklist) (tok : Token) : TokenBlacklist :=
  if tok ∈ bl then bl else tok :: bl

/-- Models `isTokenBlacklisted`: membership check. -/
def isTokenBlacklisted (bl : TokenBlacklist) (tok : Token) : Bool :=
  decide (tok ∈ bl)

/-! ## Authentication middleware (`src/middleware/authMiddleware.js`) -/

/-- A user document as far as the middleware reads it. -/
structure UserRec where
  id : Nat
  email : String
  name : String
  deriving DecidableEq

/-- Models `parseInt` restricted to the pure decimal strings this service signs as
`userId` (`userId.toString()` of a numeric id); any other string behaves
like `NaN`, on which the subsequent `findOne` matches no user. -/
def parseDecimal (s : String) : Option Nat :=
  match s.data with
  | [] => none
  | ds =>
    if ds.all (fun c => decide (48 ≤ c.toNat ∧ c.toNat ≤ 57)) then
      some (ds.foldl (fun n c => n * 10 + (c.toNat - 48)) 0)
    else none

/-- Models `authenticate` from authMiddleware.js, after the out-of-scope
`Bearer`-header extraction: reject a blacklisted token, then run
`verifyAccessToken`, then look the user up by `parseInt(decoded.userId)`.
`some` is the attached `req.user`; `none` covers every 401 response path. -/
def authenticate (bl : TokenBlacklist) (accessSecret : String) (now : Nat)
    (users : List UserRec) (tok : Token) : Option UserRec :=
  if isTokenBlacklisted bl tok then none
  else
    match verifyAccessToken accessSecret now tok with
    | none => none
    | some decoded =>
      match parseDecimal decoded.userId with
      | none => none
      | some uid => users.find? (fun u => u.id == uid)

/-- Modelled from the spec: the refresh-token flow handler (the
`refreshToken` controller that `src/routes/authRoutes.js` imports) is not
among the provided sources.  Per the spec (§4.3, §9) the reference flow
verifies the presented refresh token with `verifyRefreshToken` and, on
success, mints a new access token — without consulting the Revocation
Registry (the spec records this omission as a latent defect). -/
def refreshAccess (refreshSecret accessSecret : String) (now : Nat)
    (tok : Token) : Option Token :=
  match verifyRefreshToken refreshSecret now tok with
  | none => none
  | some decoded => some (generateAccessToken decoded.userId decoded.email accessSecret now)

/-! ## Observations used to state gate conditions -/

/-- The token is a signed assertion whose signature verifies under `secret`. -/
def tokenSignedWith (secret : String) : Token → Bool
  | .malformed _ => false
  | .signed _ k => decide (k = secret)

/-- The token is signed and not yet expired at `now`. -/
def tokenUnexpired (now : Nat) : Token → Bool
  | .malformed _ => false
  | .signed c _ => decide (now < c.exp)

/-- The token is signed and carries the given class tag. -/
def tokenHasClassTag (tag : String) : Token → Bool
  | .malformed _ => false
  | .signed c _ => decide (c.typ = tag)

/-- Internal failure taxonomy of the two verification stores (spec §7). -/
inductive FailCause where
  | notFound
  | expired
  | mismatch
  deriving DecidableEq

/-- Which failure branch of `verifyOTP` fires, if any (mirrors the source's
three early returns; `none` means the success path). -/
def otpFailCause (store : OtpStore) (email otp : String) (now : Nat) :
    Option FailCause :=
  match mapGet store (normalizeKey email) with
  | none => some .notFound
  | some storedData =>
    if now > storedData.expiresAt then some .expired
    else if storedData.otp ≠ otp then some .mismatch
    else none

/-- Which failure branch of `verifyResetToken` fires, if any. -/
def resetFailCause (hash : String → String) (store : ResetStore)
    (email token : String) (now : Nat) : Option FailCause :=
  match mapGet store (normalizeKey email) with
  | none => some .notFound
  | some storedData =>
    if now > storedData.expiresAt then some .expired
    else if storedData.token ≠ hash token then some .mismatch
    else none

/-! ## Branch lemmas for the two verifiers -/

theorem verifyOTP_noRecord (store : OtpStore) (email otp : String) (now : Nat)
    (h : mapGet store (normalizeKey email) = none) :
    verifyOTP store email otp now = (none, store) := by
  simp [verifyOTP, h]

theorem verifyOTP_expired (store : OtpStore) (email otp o u : String)
    (now e : Nat) (h : mapGet store (normalizeKey email) = some ⟨o, e, u⟩)
    (hexp : now > e) :
    verifyOTP store email otp now = (none, mapDelete store (normalizeKey email)) := by
  simp [verifyOTP, h, hexp]

theorem verifyOTP_mismatch (store : OtpStore) (email otp o u : String)
    (now e : Nat) (h : mapGet store (normalizeKey email) = some ⟨o, e, u⟩)
    (hexp : ¬ now > e) (hne : o ≠ otp) :
    verifyOTP store email otp now = (none, store) := by
  simp [verifyOTP, h, hexp, hne]

theorem verifyOTP_match (store : OtpStore) (email otp u : String) (now e : Nat)
    (h : mapGet store (normalizeKey email) = some ⟨otp, e, u⟩)
    (hexp : ¬ now > e) :
    verifyOTP store email otp now = (some u, mapDelete store (normalizeKey email)) := by
  simp [verifyOTP, h, hexp]

theorem verifyResetToken_mismatch (hash : String → String) (store : ResetStore)
    (email token tk u : String) (now e : Nat)
    (h : mapGet store (normalizeKey email) = some ⟨tk, e, u⟩)
    (hexp : ¬ now > e) (hne : tk ≠ hash token) :
    verifyResetToken hash store email token now = (none, store) := by
  simp [verifyResetToken, h, hexp, hne]

theorem verifyResetToken_match (hash : String → String) (store : ResetStore)
    (email token tk u : String) (now e : Nat)
    (h : mapGet store (normalizeKey email) = some ⟨tk, e, u⟩)
    (hexp : ¬ now > e) (heq : tk = hash token) :
    verifyResetToken hash store email token now
      = (some u, mapDelete store (normalizeKey email)) := by
  simp [verifyResetToken, h, hexp, heq]

theorem verifyOTP_fst_none_of_cause (store : OtpStore) (email otp : String)
    (now : Nat) (z : FailCause) (h : otpFailCause store email otp now = some z) :
    (verifyOTP store email otp now).1 = none := by
  cases hget : mapGet store (normalizeKey email) with
  | none => simp [verifyOTP, hget]
  | some d =>
    by_cases hexp : now > d.expiresAt
    · simp [verifyOTP, hget, hexp]
    · by_cases hne : d.otp ≠ otp
      · simp [verifyOTP, hget, hexp, hne]
      · simp [otpFailCause, hget, hexp, hne] at h

theorem verifyResetToken_fst_none_of_cause (hash : String → String)
    (store : ResetStore) (email token : String) (now : Nat) (z : FailCause)
    (h : resetFailCause hash store email token now = some z) :
    (verifyResetToken hash store email token now).1 = none := by
  cases hget : mapGet store (normalizeKey email) with
  | none => simp [verifyResetToken, hget]
  | some d =>
    by_cases hexp : now > d.expiresAt
    · simp [verifyResetToken, hget, hexp]
    · by_cases hne : d.token ≠ hash token
      · simp [verifyResetToken, hget, hexp, hne]
      · simp [resetFailCause, hget, hexp, hne] at h

theorem countKey_storeOTPWith_le (ttl : Nat) (store : OtpStore)
    (email userId otp : String) (now : Nat) (k : String)
    (h : countKey store k ≤ 1) :
    countKey (storeOTPWith ttl store email userId otp now).1 k ≤ 1 := by
  have h1 : (storeOTPWith ttl store email userId otp now).1
      = (mapSet store (normalizeKey email)
          { otp := otp, expiresAt := now + ttl, userId := userId }).filter
            (fun e => decide (now ≤ OtpRecord.expiresAt e.2)) := rfl
  rw [h1]
  exact le_trans (countKey_filter_le _ _ _) (countKey_set_le _ _ _ _ h)

theorem countKey_storeResetToken_le (hash : String → String) (store : ResetStore)
    (email userId plain : String) (now : Nat) (k : String)
    (h : countKey store k ≤ 1) :
    countKey (storeResetToken hash store email userId plain now).1 k ≤ 1 := by
  have h1 : (storeResetToken hash store email userId plain now).1
      = (mapSet store (normalizeKey email)
          { token := hash plain, expiresAt := now + TOKEN_EXPIRATION_TIME,
            userId := userId }).filter
            (fun e => decide (now ≤ ResetRecord.expiresAt e.2)) := rfl
  rw [h1]
  exact le_trans (countKey_filter_le _ _ _) (countKey_set_le _ _ _ _ h)

/-! ## Claims -/

/-- C1: for a live, unexpired OTP record, verification with the exactly
matching code returns the bound userId and deletes the record, so an
immediately repeated verification with the same account key and the same
correct code fails with the no-record outcome (store left unchanged). -/
theorem c1_otp_issue_verify_single_use (store : OtpStore)
    (email userId otp : String) (tIssue tVerify tAgain : Nat)
    (h : tVerify ≤ tIssue + OTP_EXPIRATION_TIME) :
    (verifyOTP (storeOTP store email userId otp tIssue).1 email otp tVerify).1
      = some userId ∧
    verifyOTP (verifyOTP (storeOTP store email userId otp tIssue).1 email otp tVerify).2
        email otp tAgain
      = (none,
         (verifyOTP (storeOTP store email userId otp tIssue).1 email otp tVerify).2) := by
  have hget : mapGet (storeOTP store email userId otp tIssue).1 (normalizeKey email)
      = some ⟨otp, tIssue + OTP_EXPIRATION_TIME, userId⟩ :=
    mapGet_cleanup_set _ _ _ _ _ (Nat.le_add_right _ _)
  have hv := verifyOTP_match _ email otp userId tVerify (tIssue + OTP_EXPIRATION_TIME)
    hget (by omega)
  constructor
  · rw [hv]
  · rw [hv]
    exact verifyOTP_noRecord _ _ _ _ (mapGet_delete_self _ _)

theorem c1_witness :
    (verifyOTP (storeOTP [] ("a@b.com") ("u7") ("123456") 0).1
        ("a@b.com") ("123456") 10).1 = some ("u7") ∧
    verifyOTP (verifyOTP (storeOTP [] ("a@b.com") ("u7") ("123456") 0).1
        ("a@b.com") ("123456") 10).2 ("a@b.com") ("123456") 20
      = (none, (verifyOTP (storeOTP [] ("a@b.com") ("u7") ("123456") 0).1
          ("a@b.com") ("123456") 10).2) :=
  c1_otp_issue_verify_single_use [] ("a@b.com") ("u7") ("123456") 0 10 20 (by decide)

/-- C4: issuing a second OTP for the same account while the first is
unconsumed leaves only the newest code verifiable (the older code fails),
and the OTP and reset-token stores keep at most one record per account key
across issuances. -/
theorem c4_newest_wins_one_record (store : OtpStore) (email u1 u2 c1 c2 : String)
    (t1 t2 tv : Nat) (hc : c1 ≠ c2) (ht : tv ≤ t2 + OTP_EXPIRATION_TIME)
    (hinv : ∀ k, countKey store k ≤ 1) :
    (verifyOTP (storeOTP (storeOTP store email u1 c1 t1).1 email u2 c2 t2).1
        email c1 tv).1 = none ∧
    (verifyOTP (storeOTP (storeOTP store email u1 c1 t1).1 email u2 c2 t2).1
        email c2 tv).1 = some u2 ∧
    (∀ k, countKey (storeOTP (storeOTP store email u1 c1 t1).1 email u2 c2 t2).1 k ≤ 1) ∧
    (∀ (hash : String → String) (rstore : ResetStore) (e2 uid p : String) (tr : Nat),
      (∀ k, countKey rstore k ≤ 1) →
      ∀ k, countKey (storeResetToken hash rstore e2 uid p tr).1 k ≤ 1) := by
  have hget : mapGet (storeOTP (storeOTP store email u1 c1 t1).1 email u2 c2 t2).1
      (normalizeKey email)
      = some ⟨c2, t2 + OTP_EXPIRATION_TIME, u2⟩ :=
    mapGet_cleanup_set _ _ _ _ _ (Nat.le_add_right _ _)
  refine ⟨?_, ?_, ?_, ?_⟩
  · rw [verifyOTP_mismatch _ email c1 c2 u2 tv (t2 + OTP_EXPIRATION_TIME) hget
      (by omega) (fun hh => hc hh.symm)]
  · rw [verifyOTP_match _ email c2 u2 tv (t2 + OTP_EXPIRATION_TIME) hget (by omega)]
  · intro k
    exact countKey_storeOTPWith_le _ _ _ _ _ _ _
      (countKey_storeOTPWith_le _ _ _ _ _ _ _ (hinv k))
  · intro hash rstore e2 uid p tr hr k
    exact countKey_storeResetToken_le _ _ _ _ _ _ _ (hr k)

theorem c4_witness :
    (verifyOTP (storeOTP (storeOTP [] ("a@b.com") ("u1") ("111111") 0).1
        ("a@b.com") ("u2") ("222222") 5).1 ("a@b.com") ("111111") 10).1 = none ∧
    (verifyOTP (storeOTP (storeOTP [] ("a@b.com") ("u1") ("111111") 0).1
        ("a@b.com") ("u2") ("222222") 5).1 ("a@b.com") ("222222") 10).1 = some ("u2") ∧
    countKey (storeOTP (storeOTP [] ("a@b.com") ("u1") ("111111") 0).1
        ("a@b.com") ("u2") ("222222") 5).1 ("a@b.com") ≤ 1 ∧
    countKey (storeResetToken (fun s => "h" ++ s) [] ("a@b.com") ("u3") ("tok") 0).1
        ("a@b.com") ≤ 1 := by
  obtain ⟨h1, h2, h3, h4⟩ := c4_newest_wins_one_record [] ("a@b.com") ("u1") ("u2")
    ("111111") ("222222") 0 5 10 (by decide) (by decide)
    (fun k => by simp [countKey])
  exact ⟨h1, h2, h3 ("a@b.com"),
    h4 (fun s => "h" ++ s) [] ("a@b.com") ("u3") ("tok") 0
      (fun k => by simp [countKey]) ("a@b.com")⟩

/-- C5: verifyOTP answers with the invalid result value (never a fault) in
each failure case — no record for the key, expiry (where it also deletes
the stale record), and code mismatch; in particular a correct code
presented past the expiry boundary fails. -/
theorem c5_verify_failure_cases (store : OtpStore) (email otp o u : String)
    (now e : Nat) :
    (mapGet store (normalizeKey email) = none →
      verifyOTP store email otp now = (none, store)) ∧
    (mapGet store (normalizeKey email) = some ⟨o, e, u⟩ → now > e →
      verifyOTP store email otp now = (none, mapDelete store (normalizeKey email))) ∧
    (mapGet store (normalizeKey email) = some ⟨o, e, u⟩ → ¬ now > e → o ≠ otp →
      verifyOTP store email otp now = (none, store)) :=
  ⟨fun h => verifyOTP_noRecord store email otp now h,
   fun h hexp => verifyOTP_expired store email otp o u now e h hexp,
   fun h hexp hne => verifyOTP_mismatch store email otp o u now e h hexp hne⟩

theorem c5_witness :
    verifyOTP [] ("x@y.zz") ("123456") 0 = (none, []) ∧
    verifyOTP [(("a@b.com"), ⟨"123456", 100, "u1"⟩)] ("a@b.com") ("123456") 101
      = (none, []) ∧
    verifyOTP [(("a@b.com"), ⟨"123456", 100, "u1"⟩)] ("a@b.com") ("999999") 50
      = (none, [(("a@b.com"), ⟨"123456", 100, "u1"⟩)]) :=
  ⟨(c5_verify_failure_cases [] ("x@y.zz") ("123456") ("o") ("u") 0 0).1 (by decide),
   (c5_verify_failure_cases [(("a@b.com"), ⟨"123456", 100, "u1"⟩)] ("a@b.com")
      ("123456") ("123456") ("u1") 101 100).2.1 (by decide) (by decide),
   (c5_verify_failure_cases [(("a@b.com"), ⟨"123456", 100, "u1"⟩)] ("a@b.com")
      ("999999") ("123456") ("u1") 50 100).2.2 (by decide) (by decide) (by decide)⟩

/-- C9: whatever internal cause makes a verification fail (no record,
expiry, or mismatch), the value handed back to the caller is the same
opaque invalid signal, for the OTP verifier and the reset-token verifier
alike — so no two failing calls are distinguishable by their results. -/
theorem c9_failures_indistinguishable (s1 : OtpStore) (e1 o1 : String) (n1 : Nat)
    (z1 : FailCause) (hash : String → String) (s2 : ResetStore) (e2 o2 : String)
    (n2 : Nat) (z2 : FailCause) :
    (otpFailCause s1 e1 o1 n1 = some z1 → (verifyOTP s1 e1 o1 n1).1 = none) ∧
    (resetFailCause hash s2 e2 o2 n2 = some z2 →
      (verifyResetToken hash s2 e2 o2 n2).1 = none) ∧
    (otpFailCause s1 e1 o1 n1 = some z1 → resetFailCause hash s2 e2 o2 n2 = some z2 →
      (verifyOTP s1 e1 o1 n1).1 = (verifyResetToken hash s2 e2 o2 n2).1) :=
  ⟨fun h1 => verifyOTP_fst_none_of_cause s1 e1 o1 n1 z1 h1,
   fun h2 => verifyResetToken_fst_none_of_cause hash s2 e2 o2 n2 z2 h2,
   fun h1 h2 => by
    rw [verifyOTP_fst_none_of_cause s1 e1 o1 n1 z1 h1,
      verifyResetToken_fst_none_of_cause hash s2 e2 o2 n2 z2 h2]⟩

theorem c9_witness :
    (verifyOTP [] ("a@b.com") ("123456") 5).1 = none ∧
    (verifyResetToken (fun s => "h" ++ s) [(("c@d.ee"), ⟨"htok", 100, "u2"⟩)]
        ("c@d.ee") ("bad") 5).1 = none ∧
    (verifyOTP [] ("a@b.com") ("123456") 5).1
      = (verifyResetToken (fun s => "h" ++ s) [(("c@d.ee"), ⟨"htok", 100, "u2"⟩)]
          ("c@d.ee") ("bad") 5).1 := by
  obtain ⟨h1, h2, h3⟩ := c9_failures_indistinguishable [] ("a@b.com") ("123456") 5
    FailCause.notFound (fun s => "h" ++ s) [(("c@d.ee"), ⟨"htok", 100, "u2"⟩)]
    ("c@d.ee") ("bad") 5 FailCause.mismatch
  exact ⟨h1 (by decide), h2 (by decide), h3 (by decide) (by decide)⟩

/-- C10: a verify call with a wrong guess against a live, unexpired record
returns the invalid value and leaves the store exactly as it was, so the
correct OTP code (or a candidate whose digest matches the stored reset
digest) still verifies afterwards. -/
theorem c10_failed_guess_keeps_record (store : OtpStore) (email guess o u : String)
    (now e : Nat) (hget : mapGet store (normalizeKey email) = some ⟨o, e, u⟩)
    (hexp : ¬ now > e) (hne : o ≠ guess)
    (hash : String → String) (rstore : ResetStore) (email2 guess2 tk u2 : String)
    (now2 e2 : Nat) (hget2 : mapGet rstore (normalizeKey email2) = some ⟨tk, e2, u2⟩)
    (hexp2 : ¬ now2 > e2) (hne2 : tk ≠ hash guess2) :
    verifyOTP store email guess now = (none, store) ∧
    (∀ tv : Nat, ¬ tv > e → (verifyOTP store email o tv).1 = some u) ∧
    verifyResetToken hash rstore email2 guess2 now2 = (none, rstore) ∧
    (∀ (cand : String) (tv : Nat), ¬ tv > e2 → tk = hash cand →
      (verifyResetToken hash rstore email2 cand tv).1 = some u2) := by
  refine ⟨verifyOTP_mismatch store email guess o u now e hget hexp hne, ?_,
    verifyResetToken_mismatch hash rstore email2 guess2 tk u2 now2 e2 hget2 hexp2 hne2,
    ?_⟩
  · intro tv htv
    rw [verifyOTP_match store email o u tv e hget htv]
  · intro cand tv htv heq
    rw [verifyResetToken_match hash rstore email2 cand tk u2 tv e2 hget2 htv heq]

theorem c10_witness :
    verifyOTP [(("a@b.com"), ⟨"123456", 100, "u1"⟩)] ("a@b.com") ("000000") 50
      = (none, [(("a@b.com"), ⟨"123456", 100, "u1"⟩)]) ∧
    (verifyOTP [(("a@b.com"), ⟨"123456", 100, "u1"⟩)] ("a@b.com") ("123456") 60).1
      = some ("u1") ∧
    verifyResetToken (fun s => "h" ++ s) [(("c@d.ee"), ⟨"htok", 100, "u2"⟩)]
        ("c@d.ee") ("bad") 50
      = (none, [(("c@d.ee"), ⟨"htok", 100, "u2"⟩)]) ∧
    (verifyResetToken (fun s => "h" ++ s) [(("c@d.ee"), ⟨"htok", 100, "u2"⟩)]
        ("c@d.ee") ("tok") 60).1 = some ("u2") := by
  obtain ⟨h1, h2, h3, h4⟩ := c10_failed_guess_keeps_record
    [(("a@b.com"), ⟨"123456", 100, "u1"⟩)] ("a@b.com") ("000000") ("123456") ("u1")
    50 100 (by decide) (by decide) (by decide)
    (fun s => "h" ++ s) [(("c@d.ee"), ⟨"htok", 100, "u2"⟩)] ("c@d.ee") ("bad")
    ("htok") ("u2") 50 100 (by decide) (by decide) (by decide)
  exact ⟨h1, h2 60 (by decide), h3, h4 ("tok") 60 (by decide) (by decide)⟩

theorem verifyAccessToken_some (accessSecret : String) (now : Nat) (tok : Token)
    (c : JwtClaims) (h : verifyAccessToken accessSecret now tok = some c) :
    tok = Token.signed c accessSecret ∧ now < c.exp ∧ c.typ = "access" := by
  cases tok with
  | malformed raw => simp [verifyAccessToken, jwtVerify] at h
  | signed c' k =>
    by_cases hs : k = accessSecret ∧ now < c'.exp
    · by_cases ht : c'.typ = "access"
      · have hc : c' = c := by
          simpa [verifyAccessToken, jwtVerify, hs, ht] using h
        subst hc
        exact ⟨by rw [hs.1], hs.2, ht⟩
      · simp [verifyAccessToken, jwtVerify, hs, ht] at h
    · simp [verifyAccessToken, jwtVerify, hs] at h

/-- C2: the authentication gate accepts a presented token only when all
four conditions hold — its signature verifies under the access secret, it
is unexpired, it carries the `access` class tag, and it is absent from the
revocation registry. -/
theorem c2_gate_only_accepts_valid (bl : TokenBlacklist) (accessSecret : String)
    (now : Nat) (users : List UserRec) (tok : Token) (u : UserRec)
    (h : authenticate bl accessSecret now users tok = some u) :
    isTokenBlacklisted bl tok = false ∧
    tokenSignedWith accessSecret tok = true ∧
    tokenUnexpired now tok = true ∧
    tokenHasClassTag ("access") tok = true := by
  simp only [authenticate] at h
  by_cases hbl : isTokenBlacklisted bl tok = true
  · rw [if_pos hbl] at h
    exact absurd h (by simp)
  · rw [if_neg hbl] at h
    cases hver : verifyAccessToken accessSecret now tok with
    | none =>
      rw [hver] at h
      exact absurd h (by simp)
    | some c =>
      obtain ⟨hts, hexp, htyp⟩ := verifyAccessToken_some accessSecret now tok c hver
      subst hts
      exact ⟨by simpa using hbl, by simp [tokenSignedWith],
        by simp [tokenUnexpired, hexp], by simp [tokenHasClassTag, htyp]⟩

theorem c2_witness :
    isTokenBlacklisted [] (Token.signed ⟨"1", "a@b.com", "access", 100⟩ ("sec")) = false ∧
    tokenSignedWith ("sec") (Token.signed ⟨"1", "a@b.com", "access", 100⟩ ("sec")) = true ∧
    tokenUnexpired 0 (Token.signed ⟨"1", "a@b.com", "access", 100⟩ ("sec")) = true ∧
    tokenHasClassTag ("access") (Token.signed ⟨"1", "a@b.com", "access", 100⟩ ("sec")) = true :=
  c2_gate_only_accepts_valid [] ("sec") 0 [⟨1, "a@b.com", "n"⟩]
    (Token.signed ⟨"1", "a@b.com", "access", 100⟩ ("sec")) ⟨1, "a@b.com", "n"⟩ (by decide)

/-- C3 (the code contradicts the claim): a refresh token that sits in the
revocation registry still passes `verifyRefreshToken` — which consults no
registry — and the refresh flow mints a fresh access token from it. -/
theorem c3_refresh_ignores_revocation :
    isTokenBlacklisted [Token.signed ⟨"42", "a@b.com", "refresh", 100⟩ ("rsec")]
        (Token.signed ⟨"42", "a@b.com", "refresh", 100⟩ ("rsec")) = true ∧
    verifyRefreshToken ("rsec") 50 (Token.signed ⟨"42", "a@b.com", "refresh", 100⟩ ("rsec"))
      = some ⟨"42", "a@b.com", "refresh", 100⟩ ∧
    refreshAccess ("rsec") ("asec") 50
        (Token.signed ⟨"42", "a@b.com", "refresh", 100⟩ ("rsec"))
      = some (Token.signed ⟨"42", "a@b.com", "access", 50 + ACCESS_TOKEN_EXPIRY⟩ ("asec")) :=
  ⟨by decide, by decide, by decide⟩

/-- C7: both verifiers fail closed, returning the invalid value (the model
is total, mirroring the catch-all that turns every thrown fault into null)
on wrong class tag in either direction, on structural corruption, on a
signature that does not verify under the expected secret, and on expiry. -/
theorem c7_verifiers_fail_closed (secret k raw : String) (now : Nat) (c : JwtClaims) :
    (c.typ = "refresh" → verifyAccessToken secret now (Token.signed c k) = none) ∧
    (c.typ = "access" → verifyRefreshToken secret now (Token.signed c k) = none) ∧
    verifyAccessToken secret now (Token.malformed raw) = none ∧
    verifyRefreshToken secret now (Token.malformed raw) = none ∧
    (k ≠ secret → verifyAccessToken secret now (Token.signed c k) = none ∧
      verifyRefreshToken secret now (Token.signed c k) = none) ∧
    (c.exp ≤ now → verifyAccessToken secret now (Token.signed c k) = none ∧
      verifyRefreshToken secret now (Token.signed c k) = none) := by
  refine ⟨?_, ?_, by simp [verifyAccessToken, jwtVerify],
    by simp [verifyRefreshToken, jwtVerify], ?_, ?_⟩
  · intro ht
    by_cases hs : k = secret ∧ now < c.exp
    · simp [verifyAccessToken, jwtVerify, hs, ht,
        (by decide : ("refresh" : String) ≠ "access")]
    · simp [verifyAccessToken, jwtVerify, hs]
  · intro ht
    by_cases hs : k = secret ∧ now < c.exp
    · simp [verifyRefreshToken, jwtVerify, hs, ht,
        (by decide : ("access" : String) ≠ "refresh")]
    · simp [verifyRefreshToken, jwtVerify, hs]
  · intro hk
    constructor <;> simp [verifyAccessToken, verifyRefreshToken, jwtVerify, hk]
  · intro hexp
    have hlt : ¬ now < c.exp := by omega
    constructor <;> simp [verifyAccessToken, verifyRefreshToken, jwtVerify, hlt]

theorem c7_witness :
    verifyAccessToken ("s") 0 (Token.signed ⟨"1", "e", "refresh", 100⟩ ("s")) = none ∧
    verifyRefreshToken ("s") 0 (Token.signed ⟨"1", "e", "access", 100⟩ ("s")) = none ∧
    verifyAccessToken ("s") 0 (Token.malformed ("junk")) = none ∧
    verifyAccessToken ("s") 0 (Token.signed ⟨"1", "e", "access", 100⟩ ("x")) = none ∧
    verifyAccessToken ("s") 200 (Token.signed ⟨"1", "e", "access", 100⟩ ("s")) = none :=
  ⟨(c7_verifiers_fail_closed ("s") ("s") ("junk") 0 ⟨"1", "e", "refresh", 100⟩).1 rfl,
   (c7_verifiers_fail_closed ("s") ("s") ("junk") 0 ⟨"1", "e", "access", 100⟩).2.1 rfl,
   (c7_verifiers_fail_closed ("s") ("s") ("junk") 0 ⟨"1", "e", "access", 100⟩).2.2.1,
   ((c7_verifiers_fail_closed ("s") ("x") ("junk") 0
      ⟨"1", "e", "access", 100⟩).2.2.2.2.1 (by decide)).1,
   ((c7_verifiers_fail_closed ("s") ("s") ("junk") 200
      ⟨"1", "e", "access", 100⟩).2.2.2.2.2 (by decide)).1⟩

/-- C6 counterexample: in the primary `otpService.js` the stored expiry is
the issuance time plus the documented 5 minutes (300000 ms), not plus a
30-second window (30000 ms). -/
theorem c6_counterexample :
    mapGet (storeOTP [] ("a@b.com") ("u1") ("123456") 0).1 (normalizeKey ("a@b.com"))
      = some { otp := "123456", expiresAt := 300000, userId := "u1" } ∧
    ¬ (300000 : Nat) = 0 + 30 * 1000 :=
  ⟨by decide, by decide⟩

/-- C6 amended: the generated code lies in `[100000, 999999]`, and the
stored record's expiry is the issuance time plus the version's documented
`OTP_EXPIRATION_TIME` — 5 minutes in the primary version, 30 seconds in the
second lineage version.  (`Math.random` is the entropy source; that it is
not a cryptographically secure generator is outside this embedding.) -/
theorem c6_amended_code_range_and_ttl (r : ℚ) (h0 : 0 ≤ r) (h1 : r < 1)
    (store : OtpStore) (email userId otp : String) (now : Nat) :
    100000 ≤ generateOTPVal r ∧ generateOTPVal r ≤ 999999 ∧
    mapGet (storeOTP store email userId otp now).1 (normalizeKey email)
      = some { otp := otp, expiresAt := now + OTP_EXPIRATION_TIME, userId := userId } ∧
    mapGet (storeOTP_V2 store email userId otp now).1 (normalizeKey email)
      = some { otp := otp, expiresAt := now + OTP_EXPIRATION_TIME_V2,
               userId := userId } ∧
    OTP_EXPIRATION_TIME = 5 * 60 * 1000 ∧ OTP_EXPIRATION_TIME_V2 = 30 * 1000 := by
  refine ⟨?_, ?_, mapGet_cleanup_set _ _ _ _ _ (Nat.le_add_right _ _),
    mapGet_cleanup_set _ _ _ _ _ (Nat.le_add_right _ _), rfl, rfl⟩
  · unfold generateOTPVal
    refine Int.le_floor.mpr ?_
    push_cast
    nlinarith
  · have hlt : generateOTPVal r < 1000000 := by
      unfold generateOTPVal
      refine Int.floor_lt.mpr ?_
      push_cast
      nlinarith
    omega

theorem c6_amended_witness :
    100000 ≤ generateOTPVal (1/2) ∧ generateOTPVal (1/2) ≤ 999999 ∧
    mapGet (storeOTP [] ("a@b.com") ("u1") ("123456") 0).1 (normalizeKey ("a@b.com"))
      = some { otp := "123456", expiresAt := 0 + OTP_EXPIRATION_TIME, userId := "u1" } ∧
    mapGet (storeOTP_V2 [] ("a@b.com") ("u1") ("123456") 0).1 (normalizeKey ("a@b.com"))
      = some { otp := "123456", expiresAt := 0 + OTP_EXPIRATION_TIME_V2,
               userId := "u1" } ∧
    OTP_EXPIRATION_TIME = 5 * 60 * 1000 ∧ OTP_EXPIRATION_TIME_V2 = 30 * 1000 :=
  c6_amended_code_range_and_ttl (1/2) (by norm_num) (by norm_num) [] ("a@b.com")
    ("u1") ("123456") 0

/-- C8: issuance stores exactly the one-way digest of the plaintext (with
the 15-minute expiry and the subject), returns the plaintext itself, the
stored token field never equals the plaintext (given the digest moves it),
and verification succeeds precisely when the candidate's digest equals the
stored digest. -/
theorem c8_store_holds_digest_only (hash : String → String) (store : ResetStore)
    (email userId plain : String) (now : Nat) :
    (storeResetToken hash store email userId plain now).2 = plain ∧
    mapGet (storeResetToken hash store email userId plain now).1 (normalizeKey email)
      = some { token := hash plain, expiresAt := now + TOKEN_EXPIRATION_TIME,
               userId := userId } ∧
    (hash plain ≠ plain →
      ∀ rec : ResetRecord,
        mapGet (storeResetToken hash store email userId plain now).1 (normalizeKey email)
          = some rec → rec.token ≠ plain) ∧
    (∀ (cand : String) (tv : Nat), tv ≤ now + TOKEN_EXPIRATION_TIME →
      ((verifyResetToken hash (storeResetToken hash store email userId plain now).1
          email cand tv).1 = some userId ↔ hash cand = hash plain)) := by
  have hget : mapGet (storeResetToken hash store email userId plain now).1
      (normalizeKey email)
      = some { token := hash plain, expiresAt := now + TOKEN_EXPIRATION_TIME,
               userId := userId } :=
    mapGet_cleanup_set _ _ _ _ _ (Nat.le_add_right _ _)
  refine ⟨rfl, hget, ?_, ?_⟩
  · intro hne rec hrec
    rw [hget, Option.some.injEq] at hrec
    subst hrec
    simpa using hne
  · intro cand tv htv
    constructor
    · intro hv
      by_cases heq : hash cand = hash plain
      · exact heq
      · have hmm := verifyResetToken_mismatch hash _ email cand (hash plain) userId
          tv (now + TOKEN_EXPIRATION_TIME) hget (by omega) (fun hh => heq hh.symm)
        rw [hmm] at hv
        simp at hv
    · intro heq
      rw [verifyResetToken_match hash _ email cand (hash plain) userId tv
        (now + TOKEN_EXPIRATION_TIME) hget (by omega) heq.symm]

theorem c8_witness :
    (storeResetToken (fun s => "h" ++ s) [] ("a@b.com") ("u9") ("tok") 0).2 = "tok" ∧
    mapGet (storeResetToken (fun s => "h" ++ s) [] ("a@b.com") ("u9") ("tok") 0).1
        (normalizeKey ("a@b.com"))
      = some { token := "htok", expiresAt := 0 + TOKEN_EXPIRATION_TIME,
               userId := "u9" } ∧
    ("htok" : String) ≠ "tok" ∧
    ((verifyResetToken (fun s => "h" ++ s)
        (storeResetToken (fun s => "h" ++ s) [] ("a@b.com") ("u9") ("tok") 0).1
        ("a@b.com") ("tok") 9).1 = some ("u9") ↔ ("htok" : String) = "htok") := by
  obtain ⟨h1, h2, h3, h4⟩ := c8_store_holds_digest_only (fun s => "h" ++ s) []
    ("a@b.com") ("u9") ("tok") 0
  exact ⟨h1, h2,
    h3 (by decide) ⟨"htok", 0 + TOKEN_EXPIRATION_TIME, "u9"⟩ (by decide),
    h4 ("tok") 9 (by decide)⟩

end NodeAuth
